import Mathlib

/-
  Verification of the antispam-tg-bot moderation engine.

  Shallow embedding of the decision engine in app/services/moderator.go
  (the current revision: ModeratingSrv with on-demand media download),
  of the vision-support predicate in pkg/ai (IsVisionSupported), and of
  the worker-pool startup logic in app/telegram/client.go (Client.Start
  and Client.Wait).

  Store and classifier collaborators (ScoreStore, MessagesStore, AIClient,
  MediaDownloader) are modelled as an explicit environment of call results,
  and every outbound call made by the engine is recorded in an effect
  trace, so that frame properties (which calls happen, which scores get
  written) are provable.
-/

namespace Antispam

/-- entities.ActionKind: the tag of an action. -/
inductive ActionKind where
  | noop
  | erase
  | ban
deriving DecidableEq, Repr

/-- entities.Action: a tagged action with a free-text note. -/
structure Action where
  Kind : ActionKind
  Note : String
deriving DecidableEq, Repr

/-- entities.User: sender identity (only the fields the engine passes to
stores matter here; they are opaque to the decision logic). -/
structure User where
  ID : String
  Name : String
  ChatID : String
  ChatTitle : String
deriving DecidableEq, Repr

/-- entities.Message: an inbound message with optional media descriptor. -/
structure Message where
  Sender : User
  ID : String
  Text : String
  MediaType : Option String
  MediaFileID : Option String
  MediaSize : Option Int
deriving DecidableEq, Repr

/-- entities.Message.HasText: the Go method returns m.Text != "". -/
def Message.HasText (m : Message) : Bool :=
  m.Text != ""

/-- entities.Message.HasMedia: the Go method returns m.MediaType != nil. -/
def Message.HasMedia (m : Message) : Bool :=
  m.MediaType.isSome

/-- ai.SpamCheck: the structured classifier verdict. -/
structure SpamCheck where
  IsSpam : Bool
  Note : String
deriving DecidableEq, Repr

/-- ai.VisionSupportedMimeTypes: the MIME types with value true in the Go map. -/
def VisionSupportedMimeTypes : List String :=
  ["image/jpeg", "image/png", "image/webp", "image/gif"]

/-- ai.IsVisionSupported: map lookup, absent keys give false. -/
def IsVisionSupported (mimeType : String) : Bool :=
  VisionSupportedMimeTypes.contains mimeType

/-- One outbound call made by the engine, recorded in program order. -/
inductive Effect where
  | getScoreCall
  | saveMessageCall
  | saveActionCall (messageID : Int) (action : Action)
  | saveErrorCall (messageID : Int) (errText : String)
  | setScoreCall (score : Int)
  | downloadFileCall (fileID : String)
  | textCompletionCall (text : String)
  | imageCompletionCall (text : String) (mimeType : String)
deriving DecidableEq, Repr

/-- Results the collaborators hand back to the engine during one
HandleMessage invocation.  Errors are strings, matching Go error values;
Option String results use some e for a failing call and none for success. -/
structure Env where
  getScore : Except String Int
  saveMessage : Except String Int
  saveAction : Int → Action → Option String
  setScore : User → Int → Option String
  downloadFile : String → Except String (List Nat)
  textCompletion : String → Except String SpamCheck
  imageCompletion : String → List Nat → String → Except String SpamCheck

/-- services.ModeratingSrv configuration constants. -/
structure ModeratingSrv where
  DefaultScore : Int
  TrustedScore : Int
  BanScore : Int
deriving DecidableEq, Repr

/-- services.noop: the package-level no-op action value. -/
def noop : Action :=
  { Kind := ActionKind.noop, Note := "" }

/-- services.ModeratingSrv.getNewScore: add the delta and clamp the result
to the closed interval between BanScore and TrustedScore. -/
def getNewScore (s : ModeratingSrv) (score delta : Int) : Int :=
  let newScore := score + delta
  if newScore ≤ s.BanScore then s.BanScore
  else if newScore ≥ s.TrustedScore then s.TrustedScore
  else newScore

/-- The analyzeImage / hasAnalyzableMedia condition computed twice in the Go
source: msg.HasMedia() && msg.MediaFileID != nil && msg.MediaType != nil &&
ai.IsVisionSupported(*msg.MediaType). -/
def hasAnalyzableMedia (msg : Message) : Bool :=
  match msg.MediaType, msg.MediaFileID with
  | some mime, some _ => msg.HasMedia && IsVisionSupported mime
  | _, _ => false

/-- The text substitution at the top of ModeratingSrv.checkSpam: an empty
text is replaced by the fixed placeholder before the classifier call. -/
def effectiveText (msg : Message) : String :=
  if msg.Text == "" then "(no text, analyze image only)" else msg.Text

/-- The text-only branch of ModeratingSrv.checkSpam: one call to
AI.GetJSONCompletion, its error wrapped as getting completion. -/
def textOnlyCheck (env : Env) (text : String) : Except String SpamCheck × List Effect :=
  match env.textCompletion text with
  | Except.error e => (Except.error ("getting completion: " ++ e), [Effect.textCompletionCall text])
  | Except.ok chk => (Except.ok chk, [Effect.textCompletionCall text])

/-- services.ModeratingSrv.checkSpam: choose the request shape; when the
media is analyzable, download it first and fail the check if the download
fails, otherwise issue the image request; otherwise issue the text-only
request. -/
def checkSpam (env : Env) (msg : Message) : Except String SpamCheck × List Effect :=
  let text := effectiveText msg
  match msg.MediaType, msg.MediaFileID with
  | some mime, some fileID =>
    if msg.HasMedia && IsVisionSupported mime then
      match env.downloadFile fileID with
      | Except.error e =>
        (Except.error ("downloading media: " ++ e), [Effect.downloadFileCall fileID])
      | Except.ok content =>
        match env.imageCompletion text content mime with
        | Except.error e =>
          (Except.error ("getting completion: " ++ e),
            [Effect.downloadFileCall fileID, Effect.imageCompletionCall text mime])
        | Except.ok chk =>
          (Except.ok chk,
            [Effect.downloadFileCall fileID, Effect.imageCompletionCall text mime])
    else textOnlyCheck env text
  | _, _ => textOnlyCheck env text

/-- services.ModeratingSrv.getAction: run the spam check; a check error
propagates with a zero delta; a clean verdict gives delta +1 for ham, and
for spam delta -1 with ban when the clamped decremented score has reached
BanScore, erase otherwise, both carrying the verdict note. -/
def getAction (s : ModeratingSrv) (env : Env) (score : Int) (msg : Message) :
    (Action × Int × Option String) × List Effect :=
  match checkSpam env msg with
  | (Except.error e, fx) => ((noop, 0, some ("checking spam: " ++ e)), fx)
  | (Except.ok report, fx) =>
    if !report.IsSpam then ((noop, 1, none), fx)
    else
      let newScore := getNewScore s score (-1)
      if newScore ≤ s.BanScore then
        (({ Kind := ActionKind.ban, Note := report.Note }, -1, none), fx)
      else
        (({ Kind := ActionKind.erase, Note := report.Note }, -1, none), fx)

/-- The outcome of one HandleMessage invocation: the returned action, the
returned error (none for nil) and the trace of collaborator calls. -/
structure HandleResult where
  action : Action
  err : Option String
  effects : List Effect
deriving DecidableEq, Repr

/-- services.ModeratingSrv.HandleMessage, translated clause by clause:
skip messages with neither text nor analyzable media; read the score,
return no-op for trusted users; persist the message; compute the action
(recording a check error via SaveError and returning it wrapped); persist
the action; clamp and persist the new score only when it changed; every
error return carries the wrapping prefix used by the Go source. -/
def HandleMessage (s : ModeratingSrv) (env : Env) (msg : Message) : HandleResult :=
  if !msg.HasText && !hasAnalyzableMedia msg then
    { action := noop, err := none, effects := [] }
  else
    match env.getScore with
    | Except.error e =>
      { action := noop, err := some ("getting user score: " ++ e),
        effects := [Effect.getScoreCall] }
    | Except.ok score =>
      if score ≥ s.TrustedScore then
        { action := noop, err := none, effects := [Effect.getScoreCall] }
      else
        match env.saveMessage with
        | Except.error e =>
          { action := noop, err := some ("saving message: " ++ e),
            effects := [Effect.getScoreCall, Effect.saveMessageCall] }
        | Except.ok messageID =>
          match getAction s env score msg with
          | ((action, _, some e), fx) =>
            { action := action, err := some ("getting action: " ++ e),
              effects := [Effect.getScoreCall, Effect.saveMessageCall] ++ fx ++
                [Effect.saveErrorCall messageID e] }
          | ((action, delta, none), fx) =>
            match env.saveAction messageID action with
            | some e =>
              { action := action, err := some ("saving action: " ++ e),
                effects := [Effect.getScoreCall, Effect.saveMessageCall] ++ fx ++
                  [Effect.saveActionCall messageID action] }
            | none =>
              let newScore := getNewScore s score delta
              if newScore ≠ score then
                match env.setScore msg.Sender newScore with
                | some e =>
                  { action := action, err := some ("setting user score: " ++ e),
                    effects := [Effect.getScoreCall, Effect.saveMessageCall] ++ fx ++
                      [Effect.saveActionCall messageID action, Effect.setScoreCall newScore] }
                | none =>
                  { action := action, err := none,
                    effects := [Effect.getScoreCall, Effect.saveMessageCall] ++ fx ++
                      [Effect.saveActionCall messageID action, Effect.setScoreCall newScore] }
              else
                { action := action, err := none,
                  effects := [Effect.getScoreCall, Effect.saveMessageCall] ++ fx ++
                    [Effect.saveActionCall messageID action] }

/-- The scores an effect trace persists through SetScore, in order. -/
def writtenScores (fx : List Effect) : List Int :=
  fx.filterMap fun e =>
    match e with
    | Effect.setScoreCall v => some v
    | _ => none

/-
  Shared-store execution model for same-identity concurrency.

  pkg/mutex defines KeyedMutex, but no call site in the repository uses it:
  HandleMessage acquires no lock, so the GetScore read and the SetScore
  write of two invocations for the same identity may interleave freely.
  We model the score store for one identity as a single integer cell; an
  invocation whose GetScore runs while the cell holds v is the run
  HandleMessage s (envForVerdict chk v) msg, and its SetScore effects are
  applied to the cell when they occur.
-/

/-- An environment in which every store call succeeds, GetScore returns the
given cell value, and the classifier returns the given verdict for either
request shape. -/
def envForVerdict (chk : SpamCheck) (cell : Int) : Env :=
  { getScore := Except.ok cell
    saveMessage := Except.ok 1
    saveAction := fun _ _ => none
    setScore := fun _ _ => none
    downloadFile := fun _ => Except.error "unused"
    textCompletion := fun _ => Except.ok chk
    imageCompletion := fun _ _ _ => Except.ok chk }

/-- Apply the SetScore writes of an effect trace to the score cell. -/
def applyWrites (cell : Int) (fx : List Effect) : Int :=
  fx.foldl (fun st e =>
    match e with
    | Effect.setScoreCall v => v
    | _ => st) cell

/-- Sequential processing in arrival order: each invocation reads the cell
value its predecessor left behind. -/
def runSeq (s : ModeratingSrv) (msg : Message) (verdicts : List SpamCheck) (cell : Int) : Int :=
  match verdicts with
  | [] => cell
  | chk :: rest =>
    let r := HandleMessage s (envForVerdict chk cell) msg
    runSeq s msg rest (applyWrites cell r.effects)

/-- The overlapped schedule of two same-identity invocations that the
unlocked code admits: both GetScore reads happen before either SetScore
write, then the writes land in order.  With a per-identity critical
section around read-classify-write this schedule would be impossible. -/
def runOverlappedPair (s : ModeratingSrv) (msg : Message) (chk1 chk2 : SpamCheck) (cell : Int) : Int :=
  let r1 := HandleMessage s (envForVerdict chk1 cell) msg
  let r2 := HandleMessage s (envForVerdict chk2 cell) msg
  applyWrites (applyWrites cell r1.effects) r2.effects

/-- A plain text message from a fixed sender, used by the concurrency model. -/
def textMsg (text : String) : Message :=
  { Sender := { ID := "7", Name := "alice", ChatID := "42", ChatTitle := "chat" }
    ID := "100", Text := text, MediaType := none, MediaFileID := none, MediaSize := none }

/-- A spam verdict with a note. -/
def spamVerdict : SpamCheck :=
  { IsSpam := true, Note := "advertising" }

/-- A clean verdict. -/
def hamVerdict : SpamCheck :=
  { IsSpam := false, Note := "" }

/-
  Worker-pool startup, from app/telegram/client.go.

  Client.Start returns a configuration error exactly when WorkersNum == 0;
  otherwise the loop for i := 0; i < WorkersNum; i++ registers one
  WaitGroup unit and launches one worker per iteration.  Client.Wait blocks
  on the WaitGroup, which returns immediately when no unit was registered.
-/

/-- The WorkersNum validation at the top of Client.Start. -/
def startWorkersCheck (workersNum : Int) : Option String :=
  if workersNum == 0 then some "workers number must be greater than 0" else none

/-- The number of iterations of the worker-spawning loop in Client.Start:
a Go for loop from 0 while i < workersNum runs max(workersNum, 0) times. -/
def spawnedWorkers (workersNum : Int) : Nat :=
  workersNum.toNat

/-- Client.Wait blocks on the WaitGroup; it returns immediately exactly
when the spawning loop registered no worker. -/
def waitReturnsImmediately (workersNum : Int) : Bool :=
  spawnedWorkers workersNum == 0

/-
  Concrete instances used to exercise the theorems.
-/

/-- The configuration from the spec example: DefaultScore 0, TrustedScore 10,
BanScore -4. -/
def srvEx : ModeratingSrv :=
  { DefaultScore := 0, TrustedScore := 10, BanScore := -4 }

/-- A message with empty text and an analyzable image attachment. -/
def mediaMsg : Message :=
  { Sender := { ID := "7", Name := "alice", ChatID := "42", ChatTitle := "chat" }
    ID := "9", Text := "", MediaType := some "image/jpeg", MediaFileID := some "file9",
    MediaSize := some 512 }

/-- A message with empty text and a non-image document attachment. -/
def documentMsg : Message :=
  { Sender := { ID := "7", Name := "alice", ChatID := "42", ChatTitle := "chat" }
    ID := "11", Text := "", MediaType := some "application/pdf",
    MediaFileID := some "file11", MediaSize := some 2048 }

/-- An otherwise healthy environment whose media download fails. -/
def envDownloadFail : Env :=
  { envForVerdict hamVerdict 0 with downloadFile := fun _ => Except.error "boom" }

/-- An environment whose classifier calls fail, over the given score cell. -/
def envClassifierFail (cell : Int) : Env :=
  { envForVerdict hamVerdict cell with
    textCompletion := fun _ => Except.error "api down"
    imageCompletion := fun _ _ _ => Except.error "api down" }

/-- An environment whose SaveAction call fails, over the given verdict and cell. -/
def envSaveActionFail (chk : SpamCheck) (cell : Int) : Env :=
  { envForVerdict chk cell with saveAction := fun _ _ => some "db locked" }

/-- An environment whose SetScore call fails, over the given verdict and cell. -/
def envSetScoreFail (chk : SpamCheck) (cell : Int) : Env :=
  { envForVerdict chk cell with setScore := fun _ _ => some "db locked" }

/-- The effects a spam check may emit: media download and classifier
requests only. -/
def isClassifierEffect : Effect → Bool
  | Effect.downloadFileCall _ => true
  | Effect.textCompletionCall _ => true
  | Effect.imageCompletionCall _ _ => true
  | _ => false

/-
  Helper lemmas about the embedded definitions.
-/

theorem textOnlyCheck_effects (env : Env) (t : String) :
    (textOnlyCheck env t).2 = [Effect.textCompletionCall t] := by
  unfold textOnlyCheck
  cases env.textCompletion t <;> rfl

theorem checkSpam_effects_classifier (env : Env) (msg : Message) :
    ∀ eff ∈ (checkSpam env msg).2, isClassifierEffect eff = true := by
  intro eff h
  unfold checkSpam at h
  rcases hmt : msg.MediaType with _ | mime <;>
    rcases hmf : msg.MediaFileID with _ | fid <;>
    simp only [hmt, hmf] at h
  case none.none | none.some | some.none =>
    rw [textOnlyCheck_effects] at h
    simp only [List.mem_singleton] at h
    subst h; rfl
  case some.some =>
    by_cases hsupp : (msg.HasMedia && IsVisionSupported mime) = true
    · rw [if_pos hsupp] at h
      rcases hdl : env.downloadFile fid with e | content <;> simp only [hdl] at h
      · simp only [List.mem_singleton] at h
        subst h; rfl
      · rcases hic : env.imageCompletion (effectiveText msg) content mime with e | chk <;>
          simp only [hic, List.mem_cons, List.mem_singleton, List.not_mem_nil, or_false] at h <;>
          rcases h with h | h <;> subst h <;> rfl
    · rw [if_neg hsupp, textOnlyCheck_effects] at h
      simp only [List.mem_singleton] at h
      subst h; rfl

theorem writtenScores_of_classifier (fx : List Effect)
    (h : ∀ eff ∈ fx, isClassifierEffect eff = true) : writtenScores fx = [] := by
  unfold writtenScores
  rw [List.filterMap_eq_nil_iff]
  intro eff hm
  have := h eff hm
  cases eff <;> simp_all [isClassifierEffect]

theorem checkSpam_writtenScores (env : Env) (msg : Message) :
    writtenScores (checkSpam env msg).2 = [] :=
  writtenScores_of_classifier _ (checkSpam_effects_classifier env msg)

theorem writtenScores_append (l1 l2 : List Effect) :
    writtenScores (l1 ++ l2) = writtenScores l1 ++ writtenScores l2 := by
  simp [writtenScores, List.filterMap_append]

theorem getAction_effects (s : ModeratingSrv) (env : Env) (score : Int) (msg : Message) :
    (getAction s env score msg).2 = (checkSpam env msg).2 := by
  unfold getAction
  rcases h : checkSpam env msg with ⟨res, fx⟩
  rcases res with e | report
  · rfl
  · by_cases hs : report.IsSpam = true
    · simp only [hs, Bool.not_true, Bool.false_eq_true, if_false]
      by_cases hb : getNewScore s score (-1) ≤ s.BanScore
      · rw [if_pos hb]
      · rw [if_neg hb]
    · simp only [Bool.not_eq_true] at hs
      simp only [hs, Bool.not_false, if_true]

theorem getAction_spam (s : ModeratingSrv) (env : Env) (score : Int) (msg : Message)
    (chk : SpamCheck) (fx : List Effect)
    (hC : checkSpam env msg = (Except.ok chk, fx)) (hS : chk.IsSpam = true) :
    getAction s env score msg =
      (({ Kind := if getNewScore s score (-1) ≤ s.BanScore then ActionKind.ban
            else ActionKind.erase,
          Note := chk.Note }, -1, none), fx) := by
  unfold getAction
  rw [hC]
  simp only [hS, Bool.not_true, Bool.false_eq_true, if_false]
  by_cases hb : getNewScore s score (-1) ≤ s.BanScore
  · rw [if_pos hb, if_pos hb]
  · rw [if_neg hb, if_neg hb]

theorem getAction_ham (s : ModeratingSrv) (env : Env) (score : Int) (msg : Message)
    (chk : SpamCheck) (fx : List Effect)
    (hC : checkSpam env msg = (Except.ok chk, fx)) (hS : chk.IsSpam = false) :
    getAction s env score msg = ((noop, 1, none), fx) := by
  unfold getAction
  rw [hC]
  simp only [hS, Bool.not_false, if_true]

theorem getAction_err (s : ModeratingSrv) (env : Env) (score : Int) (msg : Message)
    (e : String) (fx : List Effect)
    (hC : checkSpam env msg = (Except.error e, fx)) :
    getAction s env score msg = ((noop, 0, some ("checking spam: " ++ e)), fx) := by
  unfold getAction
  rw [hC]

theorem getNewScore_bounds (s : ModeratingSrv) (score delta : Int)
    (hOrd : s.BanScore ≤ s.TrustedScore) :
    s.BanScore ≤ getNewScore s score delta ∧ getNewScore s score delta ≤ s.TrustedScore := by
  simp only [getNewScore]
  split
  · exact ⟨le_refl _, hOrd⟩
  · split
    · exact ⟨hOrd, le_refl _⟩
    · omega

theorem getNewScore_spam_eq_max (s : ModeratingSrv) (score : Int)
    (hB : s.BanScore < score) (hT : score < s.TrustedScore) :
    getNewScore s score (-1) = max (score - 1) s.BanScore := by
  simp only [getNewScore]
  split
  · omega
  · split <;> omega

theorem getNewScore_ham_eq_min (s : ModeratingSrv) (score : Int)
    (hB : s.BanScore < score) (hT : score < s.TrustedScore) :
    getNewScore s score 1 = min (score + 1) s.TrustedScore := by
  simp only [getNewScore]
  split
  · omega
  · split <;> omega

theorem evaluable_not_skipped (msg : Message)
    (hEval : (msg.HasText || hasAnalyzableMedia msg) = true) :
    (!msg.HasText && !hasAnalyzableMedia msg) = false := by
  cases h1 : msg.HasText <;> cases h2 : hasAnalyzableMedia msg <;> simp_all

theorem handleMessage_success_changed (s : ModeratingSrv) (env : Env) (msg : Message)
    (score messageID delta : Int) (a : Action) (fx : List Effect)
    (hEval : (msg.HasText || hasAnalyzableMedia msg) = true)
    (hGet : env.getScore = Except.ok score)
    (hTr : score < s.TrustedScore)
    (hSM : env.saveMessage = Except.ok messageID)
    (hGA : getAction s env score msg = ((a, delta, none), fx))
    (hSA : env.saveAction messageID a = none)
    (hNe : getNewScore s score delta ≠ score)
    (hSS : env.setScore msg.Sender (getNewScore s score delta) = none) :
    HandleMessage s env msg =
      { action := a, err := none,
        effects := [Effect.getScoreCall, Effect.saveMessageCall] ++ fx ++
          [Effect.saveActionCall messageID a,
           Effect.setScoreCall (getNewScore s score delta)] } := by
  have hskip := evaluable_not_skipped msg hEval
  have hTr2 : ¬(score ≥ s.TrustedScore) := not_le.mpr hTr
  simp only [HandleMessage, hskip, Bool.false_eq_true, if_false, hGet, hSM, hGA, hSA,
    hTr2, hNe, hSS, ite_true, ite_false, not_false_eq_true]
  rw [if_pos hNe]

theorem not_skipped_evaluable (msg : Message)
    (h : (!msg.HasText && !hasAnalyzableMedia msg) = false) :
    (msg.HasText || hasAnalyzableMedia msg) = true := by
  cases h1 : msg.HasText <;> cases h2 : hasAnalyzableMedia msg <;> simp_all

theorem handleMessage_success_unchanged (s : ModeratingSrv) (env : Env) (msg : Message)
    (score messageID delta : Int) (a : Action) (fx : List Effect)
    (hEval : (msg.HasText || hasAnalyzableMedia msg) = true)
    (hGet : env.getScore = Except.ok score)
    (hTr : score < s.TrustedScore)
    (hSM : env.saveMessage = Except.ok messageID)
    (hGA : getAction s env score msg = ((a, delta, none), fx))
    (hSA : env.saveAction messageID a = none)
    (hEq : getNewScore s score delta = score) :
    HandleMessage s env msg =
      { action := a, err := none,
        effects := [Effect.getScoreCall, Effect.saveMessageCall] ++ fx ++
          [Effect.saveActionCall messageID a] } := by
  have hskip := evaluable_not_skipped msg hEval
  have hTr2 : ¬(score ≥ s.TrustedScore) := not_le.mpr hTr
  simp only [HandleMessage, hskip, Bool.false_eq_true, if_false, hGet, hSM, hGA, hSA,
    hTr2, hEq, ite_true, ite_false, ne_eq, not_true_eq_false]

theorem handleMessage_getAction_error (s : ModeratingSrv) (env : Env) (msg : Message)
    (score messageID delta : Int) (a : Action) (e : String) (fx : List Effect)
    (hEval : (msg.HasText || hasAnalyzableMedia msg) = true)
    (hGet : env.getScore = Except.ok score)
    (hTr : score < s.TrustedScore)
    (hSM : env.saveMessage = Except.ok messageID)
    (hGA : getAction s env score msg = ((a, delta, some e), fx)) :
    HandleMessage s env msg =
      { action := a, err := some ("getting action: " ++ e),
        effects := [Effect.getScoreCall, Effect.saveMessageCall] ++ fx ++
          [Effect.saveErrorCall messageID e] } := by
  have hskip := evaluable_not_skipped msg hEval
  have hTr2 : ¬(score ≥ s.TrustedScore) := not_le.mpr hTr
  simp only [HandleMessage, hskip, Bool.false_eq_true, if_false, hGet, hSM, hGA,
    hTr2, ite_false]

theorem handleMessage_saveAction_error (s : ModeratingSrv) (env : Env) (msg : Message)
    (score messageID delta : Int) (a : Action) (e : String) (fx : List Effect)
    (hEval : (msg.HasText || hasAnalyzableMedia msg) = true)
    (hGet : env.getScore = Except.ok score)
    (hTr : score < s.TrustedScore)
    (hSM : env.saveMessage = Except.ok messageID)
    (hGA : getAction s env score msg = ((a, delta, none), fx))
    (hSA : env.saveAction messageID a = some e) :
    HandleMessage s env msg =
      { action := a, err := some ("saving action: " ++ e),
        effects := [Effect.getScoreCall, Effect.saveMessageCall] ++ fx ++
          [Effect.saveActionCall messageID a] } := by
  have hskip := evaluable_not_skipped msg hEval
  have hTr2 : ¬(score ≥ s.TrustedScore) := not_le.mpr hTr
  simp only [HandleMessage, hskip, Bool.false_eq_true, if_false, hGet, hSM, hGA, hSA,
    hTr2, ite_false]

theorem handleMessage_setScore_error (s : ModeratingSrv) (env : Env) (msg : Message)
    (score messageID delta : Int) (a : Action) (e : String) (fx : List Effect)
    (hEval : (msg.HasText || hasAnalyzableMedia msg) = true)
    (hGet : env.getScore = Except.ok score)
    (hTr : score < s.TrustedScore)
    (hSM : env.saveMessage = Except.ok messageID)
    (hGA : getAction s env score msg = ((a, delta, none), fx))
    (hSA : env.saveAction messageID a = none)
    (hNe : getNewScore s score delta ≠ score)
    (hSS : env.setScore msg.Sender (getNewScore s score delta) = some e) :
    HandleMessage s env msg =
      { action := a, err := some ("setting user score: " ++ e),
        effects := [Effect.getScoreCall, Effect.saveMessageCall] ++ fx ++
          [Effect.saveActionCall messageID a,
           Effect.setScoreCall (getNewScore s score delta)] } := by
  have hskip := evaluable_not_skipped msg hEval
  have hTr2 : ¬(score ≥ s.TrustedScore) := not_le.mpr hTr
  simp only [HandleMessage, hskip, Bool.false_eq_true, if_false, hGet, hSM, hGA, hSA,
    hTr2, hNe, hSS, ite_true, ite_false, not_false_eq_true]
  rw [if_pos hNe]

end Antispam

namespace Antispam

/-
  Claim theorems.
-/

/-- C4: every score value that any HandleMessage invocation persists
through SetScore lies in the closed interval between BanScore and
TrustedScore, for any environment and message, hence for every sequence of
invocations; the configuration is assumed ordered (BanScore at most
TrustedScore), as the data-model invariant requires. -/
theorem handleMessage_written_scores_clamped (s : ModeratingSrv) (env : Env)
    (msg : Message) (v : Int)
    (hOrd : s.BanScore ≤ s.TrustedScore)
    (hMem : Effect.setScoreCall v ∈ (HandleMessage s env msg).effects) :
    s.BanScore ≤ v ∧ v ≤ s.TrustedScore := by
  rcases Bool.eq_false_or_eq_true (!msg.HasText && !hasAnalyzableMedia msg) with hskip | hskip
  case inl =>
    simp only [HandleMessage, hskip, if_true] at hMem
    simp at hMem
  case inr =>
    rcases hGet : env.getScore with e | score
    · simp only [HandleMessage, hskip, Bool.false_eq_true, if_false, hGet] at hMem
      simp at hMem
    · by_cases hTr : score ≥ s.TrustedScore
      · simp only [HandleMessage, hskip, Bool.false_eq_true, if_false, hGet, hTr,
          ite_true] at hMem
        simp at hMem
      · rcases hSM : env.saveMessage with e | messageID
        · simp only [HandleMessage, hskip, Bool.false_eq_true, if_false, hGet, hTr,
            ite_false, hSM] at hMem
          simp at hMem
        · rcases hGA : getAction s env score msg with ⟨⟨a, delta, errOpt⟩, fx⟩
          have hfx : fx = (checkSpam env msg).2 := by
            have h2 := getAction_effects s env score msg
            rw [hGA] at h2
            exact h2
          have hfxmem : Effect.setScoreCall v ∉ fx := by
            intro hin
            have hcl := checkSpam_effects_classifier env msg (Effect.setScoreCall v)
              (hfx ▸ hin)
            simp [isClassifierEffect] at hcl
          rcases errOpt with _ | e
          · rcases hSA : env.saveAction messageID a with _ | e2
            · by_cases hNe : getNewScore s score delta = score
              · have hres := handleMessage_success_unchanged s env msg score messageID
                  delta a fx (not_skipped_evaluable msg hskip) hGet (not_le.mp hTr) hSM
                  hGA hSA hNe
                rw [hres] at hMem
                simp [hfxmem] at hMem
              · rcases hSS : env.setScore msg.Sender (getNewScore s score delta)
                  with _ | e3
                · have hres := handleMessage_success_changed s env msg score messageID
                    delta a fx (not_skipped_evaluable msg hskip) hGet (not_le.mp hTr)
                    hSM hGA hSA hNe hSS
                  rw [hres] at hMem
                  simp [hfxmem] at hMem
                  exact hMem ▸ getNewScore_bounds s score delta hOrd
                · have hres := handleMessage_setScore_error s env msg score messageID
                    delta a e3 fx (not_skipped_evaluable msg hskip) hGet (not_le.mp hTr)
                    hSM hGA hSA hNe hSS
                  rw [hres] at hMem
                  simp [hfxmem] at hMem
                  exact hMem ▸ getNewScore_bounds s score delta hOrd
            · have hres := handleMessage_saveAction_error s env msg score messageID
                delta a e2 fx (not_skipped_evaluable msg hskip) hGet (not_le.mp hTr)
                hSM hGA hSA
              rw [hres] at hMem
              simp [hfxmem] at hMem
          · have hres := handleMessage_getAction_error s env msg score messageID
              delta a e fx (not_skipped_evaluable msg hskip) hGet (not_le.mp hTr)
              hSM hGA
            rw [hres] at hMem
            simp [hfxmem] at hMem

end Antispam

namespace Antispam

/-- C8: when the stored score of the sender is at least TrustedScore,
HandleMessage returns the no-op action with no error and performs at most
the score read: every recorded effect is the GetScore call, so no message
record, no classifier call and no score write happens, whatever the
message content. -/
theorem handleMessage_trusted_noop (s : ModeratingSrv) (env : Env) (msg : Message)
    (score : Int)
    (hGet : env.getScore = Except.ok score)
    (hT : score ≥ s.TrustedScore) :
    (HandleMessage s env msg).action = noop ∧
    (HandleMessage s env msg).err = none ∧
    ∀ eff ∈ (HandleMessage s env msg).effects, eff = Effect.getScoreCall := by
  rcases Bool.eq_false_or_eq_true (!msg.HasText && !hasAnalyzableMedia msg) with hskip | hskip
  · simp only [HandleMessage, hskip, if_true]
    refine ⟨trivial, trivial, ?_⟩
    intro eff h
    simp at h
  · simp only [HandleMessage, hskip, Bool.false_eq_true, if_false, hGet]
    rw [if_pos hT]
    refine ⟨rfl, rfl, ?_⟩
    intro eff h
    simpa using h

/-- C9: a message with empty text and either no media or a media MIME type
outside the supported-image set is skipped outright: HandleMessage returns
the no-op action, no error and an empty effect trace, so no store read or
write and no classifier call occurs. -/
theorem handleMessage_nonevaluable_skip (s : ModeratingSrv) (env : Env) (msg : Message)
    (hText : msg.Text = "")
    (hMedia : msg.MediaType = none ∨
      ∃ mime, msg.MediaType = some mime ∧ IsVisionSupported mime = false) :
    HandleMessage s env msg = { action := noop, err := none, effects := [] } := by
  have h1 : msg.HasText = false := by
    simp [Message.HasText, hText]
  have h2 : hasAnalyzableMedia msg = false := by
    unfold hasAnalyzableMedia
    rcases hMedia with h | ⟨mime, hm, hns⟩
    · rcases hf : msg.MediaFileID with _ | fid <;> simp [h, hf]
    · rcases hf : msg.MediaFileID with _ | fid <;> simp [hm, hf, hns]
  simp [HandleMessage, h1, h2]

/-- C10: Client.Start rejects a worker count of exactly zero and nothing
else; with a negative WorkersNum the configuration check passes, the
spawning loop runs zero iterations, and Wait returns immediately, so the
pool silently processes nothing. -/
theorem client_start_negative_workers (w : Int) (hw : w < 0) :
    startWorkersCheck w = none ∧ spawnedWorkers w = 0 ∧
    waitReturnsImmediately w = true ∧
    (∀ v : Int, startWorkersCheck v = none ↔ v ≠ 0) := by
  refine ⟨?_, ?_, ?_, ?_⟩
  · unfold startWorkersCheck
    rw [if_neg]
    simp only [beq_iff_eq]
    omega
  · exact Int.toNat_of_nonpos (le_of_lt hw)
  · unfold waitReturnsImmediately spawnedWorkers
    simp [Int.toNat_of_nonpos (le_of_lt hw)]
  · intro v
    unfold startWorkersCheck
    by_cases h : v = 0 <;> simp [h]

/-- C6: when the message record was persisted and the spam check fails,
HandleMessage records the wrapped check error against the record via
SaveError, returns the no-op action together with the wrapped non-nil
error, writes no score, and the action is neither erase nor ban. -/
theorem handleMessage_classifier_error (s : ModeratingSrv) (env : Env) (msg : Message)
    (score messageID : Int) (e : String) (fx : List Effect)
    (hEval : (msg.HasText || hasAnalyzableMedia msg) = true)
    (hGet : env.getScore = Except.ok score)
    (hT : score < s.TrustedScore)
    (hSM : env.saveMessage = Except.ok messageID)
    (hChk : checkSpam env msg = (Except.error e, fx)) :
    (HandleMessage s env msg).action = noop ∧
    (HandleMessage s env msg).err = some ("getting action: " ++ ("checking spam: " ++ e)) ∧
    Effect.saveErrorCall messageID ("checking spam: " ++ e) ∈ (HandleMessage s env msg).effects ∧
    writtenScores (HandleMessage s env msg).effects = [] ∧
    (HandleMessage s env msg).action.Kind ≠ ActionKind.erase ∧
    (HandleMessage s env msg).action.Kind ≠ ActionKind.ban := by
  have hGA := getAction_err s env score msg e fx hChk
  have hres := handleMessage_getAction_error s env msg score messageID 0 noop
    ("checking spam: " ++ e) fx hEval hGet hT hSM hGA
  have hfxw : writtenScores fx = [] := by
    have h0 := checkSpam_writtenScores env msg
    rw [hChk] at h0
    exact h0
  rw [hres]
  refine ⟨rfl, rfl, by simp, ?_, by simp [noop], by simp [noop]⟩
  show writtenScores ([Effect.getScoreCall, Effect.saveMessageCall] ++ fx ++
    [Effect.saveErrorCall messageID ("checking spam: " ++ e)]) = []
  rw [writtenScores_append, writtenScores_append, hfxw]
  rfl

/-- C7: once the classifier verdict is in and the action computed, a
failing SaveAction or SetScore still makes HandleMessage return the
computed action together with a non-nil wrapped error, never the no-op
default instead of it. -/
theorem handleMessage_persistence_failure_keeps_action (s : ModeratingSrv) (env : Env)
    (msg : Message) (score messageID delta : Int) (a : Action) (fx : List Effect)
    (hEval : (msg.HasText || hasAnalyzableMedia msg) = true)
    (hGet : env.getScore = Except.ok score)
    (hT : score < s.TrustedScore)
    (hSM : env.saveMessage = Except.ok messageID)
    (hGA : getAction s env score msg = ((a, delta, none), fx))
    (hFail : (∃ e, env.saveAction messageID a = some e) ∨
      (env.saveAction messageID a = none ∧ getNewScore s score delta ≠ score ∧
       ∃ e, env.setScore msg.Sender (getNewScore s score delta) = some e)) :
    (HandleMessage s env msg).action = a ∧ (HandleMessage s env msg).err ≠ none := by
  rcases hFail with ⟨e, hSA⟩ | ⟨hSA, hNe, e, hSS⟩
  · rw [handleMessage_saveAction_error s env msg score messageID delta a e fx hEval hGet
      hT hSM hGA hSA]
    exact ⟨rfl, by simp⟩
  · rw [handleMessage_setScore_error s env msg score messageID delta a e fx hEval hGet
      hT hSM hGA hSA hNe hSS]
    exact ⟨rfl, by simp⟩

end Antispam

namespace Antispam

/-- C1: for BanScore < s < TrustedScore, an evaluable message, a spam
verdict and succeeding store calls, the persisted post-condition score is
max(s-1, BanScore); the action is ban exactly when that score is at most
BanScore and erase exactly otherwise, carrying the verdict note; no error
is returned. -/
theorem handleMessage_spam_postcondition (s : ModeratingSrv) (env : Env) (msg : Message)
    (score messageID : Int) (chk : SpamCheck) (fx : List Effect)
    (hB : s.BanScore < score) (hT : score < s.TrustedScore)
    (hEval : (msg.HasText || hasAnalyzableMedia msg) = true)
    (hGet : env.getScore = Except.ok score)
    (hSM : env.saveMessage = Except.ok messageID)
    (hChk : checkSpam env msg = (Except.ok chk, fx))
    (hSpam : chk.IsSpam = true)
    (hSA : ∀ i a, env.saveAction i a = none)
    (hSS : ∀ u x, env.setScore u x = none) :
    writtenScores (HandleMessage s env msg).effects = [max (score - 1) s.BanScore] ∧
    ((HandleMessage s env msg).action.Kind = ActionKind.ban ↔
      max (score - 1) s.BanScore ≤ s.BanScore) ∧
    ((HandleMessage s env msg).action.Kind = ActionKind.erase ↔
      s.BanScore < max (score - 1) s.BanScore) ∧
    (HandleMessage s env msg).action.Note = chk.Note ∧
    (HandleMessage s env msg).err = none := by
  have hGA := getAction_spam s env score msg chk fx hChk hSpam
  have hmax := getNewScore_spam_eq_max s score hB hT
  have hNe : getNewScore s score (-1) ≠ score := by
    rcases max_cases (score - 1) s.BanScore with ⟨h1, h2⟩ | ⟨h1, h2⟩ <;>
      rw [hmax, h1] <;> omega
  have hres := handleMessage_success_changed s env msg score messageID (-1)
    { Kind := if getNewScore s score (-1) ≤ s.BanScore then ActionKind.ban
        else ActionKind.erase,
      Note := chk.Note } fx hEval hGet hT hSM hGA (hSA _ _) hNe (hSS _ _)
  have hfxw : writtenScores fx = [] := by
    have h0 := checkSpam_writtenScores env msg
    rw [hChk] at h0
    exact h0
  rw [hres]
  refine ⟨?_, ?_, ?_, rfl, rfl⟩
  · show writtenScores ([Effect.getScoreCall, Effect.saveMessageCall] ++ fx ++
      [Effect.saveActionCall messageID _,
       Effect.setScoreCall (getNewScore s score (-1))]) = _
    rw [writtenScores_append, writtenScores_append, hfxw, hmax]
    rfl
  · show (if getNewScore s score (-1) ≤ s.BanScore then ActionKind.ban
      else ActionKind.erase) = ActionKind.ban ↔ _
    rw [hmax]
    by_cases hb : max (score - 1) s.BanScore ≤ s.BanScore
    · simp [hb]
    · simp [hb]
  · show (if getNewScore s score (-1) ≤ s.BanScore then ActionKind.ban
      else ActionKind.erase) = ActionKind.erase ↔ _
    rw [hmax]
    by_cases hb : max (score - 1) s.BanScore ≤ s.BanScore
    · simp [hb]
      omega
    · simp [hb]
      omega

/-- C2: for BanScore < s < TrustedScore, an evaluable message, a clean
verdict and succeeding store calls, the persisted post-condition score is
min(s+1, TrustedScore) (it always differs from s here, so it is written),
the no-op action is recorded against the message record, and the returned
action is no-op with no error. -/
theorem handleMessage_ham_postcondition (s : ModeratingSrv) (env : Env) (msg : Message)
    (score messageID : Int) (chk : SpamCheck) (fx : List Effect)
    (hB : s.BanScore < score) (hT : score < s.TrustedScore)
    (hEval : (msg.HasText || hasAnalyzableMedia msg) = true)
    (hGet : env.getScore = Except.ok score)
    (hSM : env.saveMessage = Except.ok messageID)
    (hChk : checkSpam env msg = (Except.ok chk, fx))
    (hSpam : chk.IsSpam = false)
    (hSA : ∀ i a, env.saveAction i a = none)
    (hSS : ∀ u x, env.setScore u x = none) :
    writtenScores (HandleMessage s env msg).effects = [min (score + 1) s.TrustedScore] ∧
    Effect.saveActionCall messageID noop ∈ (HandleMessage s env msg).effects ∧
    (HandleMessage s env msg).action = noop ∧
    (HandleMessage s env msg).err = none := by
  have hGA := getAction_ham s env score msg chk fx hChk hSpam
  have hmin := getNewScore_ham_eq_min s score hB hT
  have hNe : getNewScore s score 1 ≠ score := by
    rcases min_cases (score + 1) s.TrustedScore with ⟨h1, h2⟩ | ⟨h1, h2⟩ <;>
      rw [hmin, h1] <;> omega
  have hres := handleMessage_success_changed s env msg score messageID 1 noop fx
    hEval hGet hT hSM hGA (hSA _ _) hNe (hSS _ _)
  have hfxw : writtenScores fx = [] := by
    have h0 := checkSpam_writtenScores env msg
    rw [hChk] at h0
    exact h0
  rw [hres]
  refine ⟨?_, by simp, rfl, rfl⟩
  show writtenScores ([Effect.getScoreCall, Effect.saveMessageCall] ++ fx ++
    [Effect.saveActionCall messageID noop,
     Effect.setScoreCall (getNewScore s score 1)]) = _
  rw [writtenScores_append, writtenScores_append, hfxw, hmin]
  rfl

end Antispam

namespace Antispam

/-- C5 counterexample: on a message with empty text and an analyzable
image, a failing DownloadFile makes checkSpam return the wrapped
media-fetch error with no verdict, and no text-only classifier request is
issued, contradicting the claimed fallback to text-only classification. -/
theorem checkSpam_download_failure_cex :
    (checkSpam envDownloadFail mediaMsg).1 = Except.error "downloading media: boom" ∧
    Effect.textCompletionCall (effectiveText mediaMsg) ∉
      (checkSpam envDownloadFail mediaMsg).2 := by
  constructor
  · rfl
  · decide

/-- C5 amended: when the message carries analyzable media and DownloadFile
fails, checkSpam fails the whole evaluation: it returns the wrapped
media-fetch error after the download call only, issuing no classifier
request of either shape. -/
theorem checkSpam_download_failure_fatal (env : Env) (msg : Message)
    (mime fileID e : String)
    (hMime : msg.MediaType = some mime)
    (hFid : msg.MediaFileID = some fileID)
    (hSupp : IsVisionSupported mime = true)
    (hDl : env.downloadFile fileID = Except.error e) :
    checkSpam env msg =
      (Except.error ("downloading media: " ++ e), [Effect.downloadFileCall fileID]) := by
  have hHM : msg.HasMedia = true := by
    simp [Message.HasMedia, hMime]
  unfold checkSpam
  simp only [hMime, hFid, hHM, hSupp, Bool.and_self, if_true, hDl]

/-
  C3 machinery: relating the score cell after a run to the written scores.
-/

theorem applyWrites_of_writes_nil (fx : List Effect) :
    ∀ c : Int, writtenScores fx = [] → applyWrites c fx = c := by
  induction fx with
  | nil => intro c _; rfl
  | cons e rest ih =>
    intro c h
    cases e <;> simp [writtenScores, List.filterMap_cons] at h <;>
      simp [applyWrites, List.foldl_cons] <;>
      exact ih c (by simpa [writtenScores] using h)

theorem applyWrites_of_writes_single (fx : List Effect) :
    ∀ c v : Int, writtenScores fx = [v] → applyWrites c fx = v := by
  induction fx with
  | nil => intro c v h; simp [writtenScores] at h
  | cons e rest ih =>
    intro c v h
    cases e with
    | setScoreCall u =>
      have h2 : u = v ∧ writtenScores rest = [] := by
        simpa [writtenScores, List.filterMap_cons] using h
      have h3 : applyWrites u rest = u := applyWrites_of_writes_nil rest u h2.2
      show applyWrites u rest = v
      rw [h3, h2.1]
    | _ =>
      exact ih c v (by simpa [writtenScores, List.filterMap_cons] using h)

end Antispam

namespace Antispam

theorem getNewScore_dec_eq (s : ModeratingSrv) (x : Int)
    (hB : s.BanScore < x) (hT : x < s.TrustedScore) :
    getNewScore s x (-1) = x - 1 := by
  simp only [getNewScore]
  split
  · omega
  · split <;> omega

theorem getNewScore_inc_eq (s : ModeratingSrv) (x : Int)
    (hB : s.BanScore ≤ x) (hT : x < s.TrustedScore) :
    getNewScore s x 1 = x + 1 := by
  simp only [getNewScore]
  split
  · omega
  · split <;> omega

theorem envForVerdict_spam_writes (s : ModeratingSrv) (x : Int)
    (hB : s.BanScore < x) (hT : x < s.TrustedScore) :
    writtenScores
      (HandleMessage s (envForVerdict spamVerdict x) (textMsg "hello")).effects =
      [x - 1] := by
  have hChk : checkSpam (envForVerdict spamVerdict x) (textMsg "hello") =
      (Except.ok spamVerdict, [Effect.textCompletionCall "hello"]) := rfl
  have hGA := getAction_spam s (envForVerdict spamVerdict x) x (textMsg "hello")
    spamVerdict _ hChk rfl
  have hdec := getNewScore_dec_eq s x hB hT
  have hNe : getNewScore s x (-1) ≠ x := by rw [hdec]; omega
  have hres := handleMessage_success_changed s (envForVerdict spamVerdict x)
    (textMsg "hello") x 1 (-1)
    { Kind := if getNewScore s x (-1) ≤ s.BanScore then ActionKind.ban
        else ActionKind.erase,
      Note := spamVerdict.Note }
    [Effect.textCompletionCall "hello"] rfl rfl hT rfl hGA rfl hNe rfl
  rw [hres, writtenScores_append, writtenScores_append, hdec]
  rfl

theorem envForVerdict_ham_writes (s : ModeratingSrv) (x : Int)
    (hB : s.BanScore ≤ x) (hT : x < s.TrustedScore) :
    writtenScores
      (HandleMessage s (envForVerdict hamVerdict x) (textMsg "hello")).effects =
      [x + 1] := by
  have hChk : checkSpam (envForVerdict hamVerdict x) (textMsg "hello") =
      (Except.ok hamVerdict, [Effect.textCompletionCall "hello"]) := rfl
  have hGA := getAction_ham s (envForVerdict hamVerdict x) x (textMsg "hello")
    hamVerdict _ hChk rfl
  have hinc := getNewScore_inc_eq s x hB hT
  have hNe : getNewScore s x 1 ≠ x := by rw [hinc]; omega
  have hres := handleMessage_success_changed s (envForVerdict hamVerdict x)
    (textMsg "hello") x 1 1 noop
    [Effect.textCompletionCall "hello"] rfl rfl hT rfl hGA rfl hNe rfl
  rw [hres, writtenScores_append, writtenScores_append, hinc]
  rfl

/-- C3 counterexample: with the spec-example configuration and initial
score 0, the overlapped schedule of a spam-verdict run and a clean-verdict
run for the same identity (both score reads before either write, which
the lock-free HandleMessage admits) ends at score 1, while sequential
processing in arrival order ends at score 0: the final scores differ, so
same-identity invocations are not linearized. -/
theorem overlapped_pair_lost_update_cex :
    runOverlappedPair srvEx (textMsg "hello") spamVerdict hamVerdict 0 ≠
      runSeq srvEx (textMsg "hello") [spamVerdict, hamVerdict] 0 := by
  decide

/-- C3 amended: HandleMessage performs no per-identity locking (KeyedMutex
in pkg/mutex has no call site), so for every configuration and every score
strictly between BanScore and TrustedScore, the overlapped schedule of a
spam run and a clean run for the same identity loses the spam decrement,
ending at cell+1, while sequential processing in arrival order ends back
at cell. -/
theorem handleMessage_no_lock_lost_update (s : ModeratingSrv) (cell : Int)
    (hB : s.BanScore < cell) (hT : cell < s.TrustedScore) :
    runOverlappedPair s (textMsg "hello") spamVerdict hamVerdict cell = cell + 1 ∧
    runSeq s (textMsg "hello") [spamVerdict, hamVerdict] cell = cell := by
  have w1 := envForVerdict_spam_writes s cell hB hT
  have w2 := envForVerdict_ham_writes s cell (le_of_lt hB) hT
  have w3 := envForVerdict_ham_writes s (cell - 1) (by omega) (by omega)
  constructor
  · show applyWrites
      (applyWrites cell
        (HandleMessage s (envForVerdict spamVerdict cell) (textMsg "hello")).effects)
      (HandleMessage s (envForVerdict hamVerdict cell) (textMsg "hello")).effects =
      cell + 1
    rw [applyWrites_of_writes_single _ _ _ w1, applyWrites_of_writes_single _ _ _ w2]
  · show runSeq s (textMsg "hello") [hamVerdict]
      (applyWrites cell
        (HandleMessage s (envForVerdict spamVerdict cell) (textMsg "hello")).effects) =
      cell
    rw [applyWrites_of_writes_single _ _ _ w1]
    show applyWrites (cell - 1)
      (HandleMessage s (envForVerdict hamVerdict (cell - 1)) (textMsg "hello")).effects =
      cell
    rw [applyWrites_of_writes_single _ _ _ w3]
    omega

end Antispam

namespace Antispam

/-- C1 witness at the spec-example configuration, score 0. -/
theorem handleMessage_spam_postcondition_witness :
    srvEx.BanScore < 0 ∧ (0 : Int) < srvEx.TrustedScore ∧
    (writtenScores
        (HandleMessage srvEx (envForVerdict spamVerdict 0) (textMsg "hello")).effects =
      [max ((0 : Int) - 1) srvEx.BanScore] ∧
     ((HandleMessage srvEx (envForVerdict spamVerdict 0) (textMsg "hello")).action.Kind =
        ActionKind.ban ↔ max ((0 : Int) - 1) srvEx.BanScore ≤ srvEx.BanScore) ∧
     ((HandleMessage srvEx (envForVerdict spamVerdict 0) (textMsg "hello")).action.Kind =
        ActionKind.erase ↔ srvEx.BanScore < max ((0 : Int) - 1) srvEx.BanScore) ∧
     (HandleMessage srvEx (envForVerdict spamVerdict 0) (textMsg "hello")).action.Note =
       spamVerdict.Note ∧
     (HandleMessage srvEx (envForVerdict spamVerdict 0) (textMsg "hello")).err = none) :=
  ⟨by decide, by decide,
   handleMessage_spam_postcondition srvEx (envForVerdict spamVerdict 0) (textMsg "hello")
     0 1 spamVerdict [Effect.textCompletionCall "hello"] (by decide) (by decide) rfl rfl
     rfl rfl rfl (fun _ _ => rfl) (fun _ _ => rfl)⟩

/-- C2 witness at the spec-example configuration, score 0. -/
theorem handleMessage_ham_postcondition_witness :
    srvEx.BanScore < 0 ∧ (0 : Int) < srvEx.TrustedScore ∧
    (writtenScores
        (HandleMessage srvEx (envForVerdict hamVerdict 0) (textMsg "hello")).effects =
      [min ((0 : Int) + 1) srvEx.TrustedScore] ∧
     Effect.saveActionCall 1 noop ∈
       (HandleMessage srvEx (envForVerdict hamVerdict 0) (textMsg "hello")).effects ∧
     (HandleMessage srvEx (envForVerdict hamVerdict 0) (textMsg "hello")).action = noop ∧
     (HandleMessage srvEx (envForVerdict hamVerdict 0) (textMsg "hello")).err = none) :=
  ⟨by decide, by decide,
   handleMessage_ham_postcondition srvEx (envForVerdict hamVerdict 0) (textMsg "hello")
     0 1 hamVerdict [Effect.textCompletionCall "hello"] (by decide) (by decide) rfl rfl
     rfl rfl rfl (fun _ _ => rfl) (fun _ _ => rfl)⟩

/-- C3 amended-claim witness at the spec-example configuration, score 0. -/
theorem handleMessage_no_lock_lost_update_witness :
    srvEx.BanScore < 0 ∧ (0 : Int) < srvEx.TrustedScore ∧
    (runOverlappedPair srvEx (textMsg "hello") spamVerdict hamVerdict 0 = 0 + 1 ∧
     runSeq srvEx (textMsg "hello") [spamVerdict, hamVerdict] 0 = 0) :=
  ⟨by decide, by decide,
   handleMessage_no_lock_lost_update srvEx 0 (by decide) (by decide)⟩

/-- C4 witness: the spam run at score 0 writes -1, which is clamped. -/
theorem handleMessage_written_scores_clamped_witness :
    srvEx.BanScore ≤ srvEx.TrustedScore ∧
    Effect.setScoreCall (-1) ∈
      (HandleMessage srvEx (envForVerdict spamVerdict 0) (textMsg "hello")).effects ∧
    (srvEx.BanScore ≤ -1 ∧ (-1 : Int) ≤ srvEx.TrustedScore) :=
  ⟨by decide, by decide,
   handleMessage_written_scores_clamped srvEx (envForVerdict spamVerdict 0)
     (textMsg "hello") (-1) (by decide) (by decide)⟩

/-- C5 amended-claim witness: an image message whose download fails. -/
theorem checkSpam_download_failure_fatal_witness :
    mediaMsg.MediaType = some "image/jpeg" ∧
    IsVisionSupported "image/jpeg" = true ∧
    checkSpam envDownloadFail mediaMsg =
      (Except.error ("downloading media: " ++ "boom"), [Effect.downloadFileCall "file9"]) :=
  ⟨rfl, by decide,
   checkSpam_download_failure_fatal envDownloadFail mediaMsg "image/jpeg" "file9" "boom"
     rfl rfl (by decide) rfl⟩

/-- C6 witness: the classifier call fails over score 0. -/
theorem handleMessage_classifier_error_witness :
    checkSpam (envClassifierFail 0) (textMsg "hello") =
      (Except.error "getting completion: api down", [Effect.textCompletionCall "hello"]) ∧
    ((HandleMessage srvEx (envClassifierFail 0) (textMsg "hello")).action = noop ∧
     (HandleMessage srvEx (envClassifierFail 0) (textMsg "hello")).err =
       some ("getting action: " ++ ("checking spam: " ++ "getting completion: api down")) ∧
     Effect.saveErrorCall 1 ("checking spam: " ++ "getting completion: api down") ∈
       (HandleMessage srvEx (envClassifierFail 0) (textMsg "hello")).effects ∧
     writtenScores (HandleMessage srvEx (envClassifierFail 0) (textMsg "hello")).effects = [] ∧
     (HandleMessage srvEx (envClassifierFail 0) (textMsg "hello")).action.Kind ≠
       ActionKind.erase ∧
     (HandleMessage srvEx (envClassifierFail 0) (textMsg "hello")).action.Kind ≠
       ActionKind.ban) :=
  ⟨rfl,
   handleMessage_classifier_error srvEx (envClassifierFail 0) (textMsg "hello") 0 1
     "getting completion: api down" [Effect.textCompletionCall "hello"] (by decide)
     rfl (by decide) rfl rfl⟩

/-- C7 witness: SaveAction fails after an erase action was computed. -/
theorem handleMessage_persistence_failure_keeps_action_witness :
    (envSaveActionFail spamVerdict 0).saveAction 1
      { Kind := ActionKind.erase, Note := "advertising" } = some "db locked" ∧
    ((HandleMessage srvEx (envSaveActionFail spamVerdict 0) (textMsg "hello")).action =
      { Kind := ActionKind.erase, Note := "advertising" } ∧
     (HandleMessage srvEx (envSaveActionFail spamVerdict 0) (textMsg "hello")).err ≠ none) :=
  ⟨rfl,
   handleMessage_persistence_failure_keeps_action srvEx (envSaveActionFail spamVerdict 0)
     (textMsg "hello") 0 1 (-1) { Kind := ActionKind.erase, Note := "advertising" }
     [Effect.textCompletionCall "hello"] (by decide) rfl (by decide) rfl (by decide)
     (Or.inl ⟨"db locked", rfl⟩)⟩

/-- C8 witness: a trusted user at the trusted threshold. -/
theorem handleMessage_trusted_noop_witness :
    (envForVerdict spamVerdict 10).getScore = Except.ok 10 ∧
    (10 : Int) ≥ srvEx.TrustedScore ∧
    (HandleMessage srvEx (envForVerdict spamVerdict 10) (textMsg "hello")).action = noop ∧
    (HandleMessage srvEx (envForVerdict spamVerdict 10) (textMsg "hello")).err = none :=
  ⟨rfl, by decide,
   (handleMessage_trusted_noop srvEx (envForVerdict spamVerdict 10) (textMsg "hello")
     10 rfl (by decide)).1,
   (handleMessage_trusted_noop srvEx (envForVerdict spamVerdict 10) (textMsg "hello")
     10 rfl (by decide)).2.1⟩

/-- C9 witness: an empty-text message with a PDF document attachment. -/
theorem handleMessage_nonevaluable_skip_witness :
    documentMsg.Text = "" ∧
    IsVisionSupported "application/pdf" = false ∧
    HandleMessage srvEx (envForVerdict spamVerdict 0) documentMsg =
      { action := noop, err := none, effects := [] } :=
  ⟨rfl, by decide,
   handleMessage_nonevaluable_skip srvEx (envForVerdict spamVerdict 0) documentMsg rfl
     (Or.inr ⟨"application/pdf", rfl, by decide⟩)⟩

/-- C10 witness: a pool configured with -3 workers. -/
theorem client_start_negative_workers_witness :
    (-3 : Int) < 0 ∧ startWorkersCheck (-3) = none ∧ spawnedWorkers (-3) = 0 ∧
    waitReturnsImmediately (-3) = true :=
  ⟨by decide,
   (client_start_negative_workers (-3) (by decide)).1,
   (client_start_negative_workers (-3) (by decide)).2.1,
   (client_start_negative_workers (-3) (by decide)).2.2.1⟩

end Antispam
